import Mathlib

set_option autoImplicit false

namespace FlaskRestAlchemy

/-!
Shallow embedding of the flask-restalchemy request-to-persistence engine
(src/flask_restalchemy/resources/resources.py) and of the DateTime wire
serializer (flask_restalchemy/serialization/serializer.py).

Wire values are modelled by `Value`, wire documents (Python dicts) by
association lists with first-binding lookup, entities by a primary key plus a
field document, and the SQLAlchemy session/repository by a list of entities
keyed by primary key (primary keys are unique in the database; lookups return
the first match).  A handler's side effects — session mutations, serializer
lifecycle hooks, commits — are returned explicitly as part of its result.
The per-field serialization rules and the query-string translation
(`query_from_request`) are external collaborators and appear as parameters.
-/

/-- A wire-safe value: JSON null or a number (numbers suffice for the claims
under study; primary keys are natural numbers). -/
inductive Value where
  | vnull
  | vnat (n : Nat)
deriving DecidableEq

/-- A wire document: a Python dict as an association list from field names to
values; lookup returns the first binding for a key. -/
abbrev Doc := List (String × Value)

/-- Dict lookup, `d[k]` / `d.get(k)`. -/
def Doc.get (d : Doc) (k : String) : Option Value :=
  d.lookup k

/-- Python `base.update(incoming)`: afterwards a key bound in `incoming` has
the incoming value and every other key keeps the `base` binding.  The
association-list representation puts the incoming bindings first. -/
def Doc.update (base incoming : Doc) : Doc :=
  incoming ++ base

/-- An entity: a persisted record with a primary key and its fields. -/
structure Entity where
  eid : Nat
  fields : Doc
deriving DecidableEq

/-- The repository of one entity type inside the session. -/
abbrev Repo := List Entity

/-- `Model.query.get(i)` / `session.query(Model).get(i)`: fetch by primary
key. -/
def Repo.get (r : Repo) (i : Nat) : Option Entity :=
  r.find? (fun e => e.eid == i)

/-- `session.query(Model).get(v)` where the key comes from a wire value: a
null (or non-integer) key finds no row. -/
def Repo.getByValue (r : Repo) (v : Value) : Option Entity :=
  match v with
  | .vnull => none
  | .vnat n => Repo.get r n

/-- `session.add(e)` followed by commit: insert the row, or replace the row
that has the same primary key. -/
def Repo.add (r : Repo) (e : Entity) : Repo :=
  if (r.find? (fun x => x.eid == e.eid)).isSome then
    r.map (fun x => if x.eid == e.eid then e else x)
  else
    r ++ [e]

/-- `session.delete(e)` followed by commit: remove the row with the given
primary key. -/
def Repo.removeId (r : Repo) (i : Nat) : Repo :=
  r.filter (fun e => !(e.eid == i))

/-- Observable session / serializer events of one request: the lifecycle
hooks fired by `_save_model`, plus delete/flush/commit session calls. -/
inductive Hook where
  | beforePostCommit
  | afterPostCommit
  | beforePutCommit
  | afterPutCommit
  | commitEvent
  | flushEvent
  | deleteEvent
deriving DecidableEq

/-- A response payload: a dumped document, a list of dumped documents, a bare
message string, or the empty body of a 204. -/
inductive Body where
  | doc (d : Doc)
  | docs (l : List Doc)
  | msg (s : String)
  | empty
deriving DecidableEq

/-- The fixed not-found body (module constant NOT_FOUND_ERROR). -/
def NOT_FOUND_ERROR : String := "Resource not found in the database!"

/-- Modelled from the spec: the EntitySerializer capability
(flask_restalchemy/serialization/modelserializer.py, which is not under
src/).  Loading a wire document into an existing entity sets every field
present in the document on the entity and leaves its other fields and its
primary key untouched. -/
def loadInto (d : Doc) (e : Entity) : Entity :=
  { eid := e.eid, fields := Doc.update e.fields d }

/-- Modelled from the spec: loading a wire document with no existing entity
constructs a new instance whose primary key is the one the repository assigns
at commit time (`fresh`). -/
def loadNew (d : Doc) (fresh : Nat) : Entity :=
  { eid := fresh, fields := d }

/-- The HTTP method tag selecting the lifecycle hook pair. -/
inductive Method where
  | POST
  | PUT
deriving DecidableEq

/-- BaseResource._save_model: add the entity to the session, run the
method's before-commit hook, commit, then run the method's after-commit
hook.  The repository mutation and the fired events are returned
explicitly. -/
def saveModel (r : Repo) (e : Entity) (m : Method) : Repo × List Hook :=
  (Repo.add r e,
    (match m with
      | .POST => [Hook.beforePostCommit]
      | .PUT => [Hook.beforePutCommit])
    ++ [Hook.commitEvent]
    ++ (match m with
      | .POST => [Hook.afterPostCommit]
      | .PUT => [Hook.afterPutCommit]))

/-- Result of `_save_serialized`: the loaded entity, the session state after
commit, the fired events, the method tag used, and the dumped result. -/
structure SaveOut where
  entity : Entity
  repo : Repo
  hooks : List Hook
  method : Method
  dumped : Doc
deriving DecidableEq

/-- BaseResource._save_serialized: load the document into the existing
entity when one is given and into a new instance otherwise; the method tag
is PUT exactly when an existing entity was supplied; save through
`_save_model`; return the dump of the saved entity.  `dump` is the abstract
EntitySerializer dump. -/
def saveSerialized (dump : Entity → Doc) (fresh : Nat) (r : Repo) (d : Doc)
    (existing : Option Entity) : SaveOut :=
  let e :=
    match existing with
    | some m => loadInto d m
    | none => loadNew d fresh
  let meth := if existing.isSome then Method.PUT else Method.POST
  let res := saveModel r e meth
  { entity := e, repo := res.1, hooks := res.2, method := meth, dumped := dump e }

/-- Result of a Single-Entity handler call: response body and status code,
plus the session state and fired events. -/
structure HandlerOut where
  body : Body
  code : Nat
  repo : Repo
  hooks : List Hook
deriving DecidableEq

/-- ModelResource.get: with an id (the code tests `id is not None`), fetch by
primary key, 404 with the fixed body when absent, else the dumped entity with
the implicit 200; without an id, the collection listing delegated to
`query_from_request`, whose result is the abstract `listing`. -/
def ModelResource.get (dump : Entity → Doc) (listing : Body) (r : Repo)
    (i : Option Nat) : Body × Nat :=
  match i with
  | some n =>
    match Repo.get r n with
    | none => (Body.msg NOT_FOUND_ERROR, 404)
    | some e => (Body.doc (dump e), 200)
  | none => (listing, 200)

/-- ModelResource.put: fetch by key (404 when absent), dump the existing
entity, shallow-merge the request document on top, save through
`_save_serialized` with the existing entity set. -/
def ModelResource.put (dump : Entity → Doc) (fresh : Nat) (r : Repo) (i : Nat)
    (req : Doc) : HandlerOut :=
  match Repo.get r i with
  | none => { body := Body.msg NOT_FOUND_ERROR, code := 404, repo := r, hooks := [] }
  | some e =>
    let serialized := Doc.update (dump e) req
    let out := saveSerialized dump fresh r serialized (some e)
    { body := Body.doc out.dumped, code := 200, repo := out.repo, hooks := out.hooks }

/-- ModelResource.delete: fetch by key (404 when absent), else delete from
the session, flush, commit, and answer an empty body with 204. -/
def ModelResource.delete (r : Repo) (i : Nat) : HandlerOut :=
  match Repo.get r i with
  | none => { body := Body.msg NOT_FOUND_ERROR, code := 404, repo := r, hooks := [] }
  | some _ =>
    { body := Body.empty, code := 204, repo := Repo.removeId r i,
      hooks := [Hook.deleteEvent, Hook.flushEvent, Hook.commitEvent] }

/-- ModelResource.post: read the document and save it with no existing
entity (create path); answer the dumped result with 201. -/
def ModelResource.post (dump : Entity → Doc) (fresh : Nat) (r : Repo)
    (req : Doc) : HandlerOut :=
  let out := saveSerialized dump fresh r req none
  { body := Body.doc out.dumped, code := 201, repo := out.repo, hooks := out.hooks }

/-- A parent entity: its primary key and the primary keys of the children in
its to-many relation collection. -/
structure Parent where
  pid : Nat
  childIds : List Nat
deriving DecidableEq

/-- The repository of the parent (related) entity type. -/
abbrev ParentRepo := List Parent

/-- `session.query(related_model).get(relation_id)`: fetch a parent by
primary key. -/
def ParentRepo.get (r : ParentRepo) (i : Nat) : Option Parent :=
  r.find? (fun p => p.pid == i)

/-- `collection.append(child)` on the relation collection of the parent with
key `relationId`, written back through the session. -/
def ParentRepo.appendChild (r : ParentRepo) (relationId cid : Nat) : ParentRepo :=
  r.map (fun p => if p.pid == relationId then { p with childIds := p.childIds ++ [cid] } else p)

/-- Python truthiness of an optional integer id: `None` and `0` are falsy. -/
def pyTruthy : Option Nat → Bool
  | none => false
  | some n => n != 0

/-- ToManyRelationResource._query_related_obj: filter the parent type by
primary key AND by `relation_property.any(id=id)` with `one_or_none` (parent
primary keys are unique, so at most one row matches); when no parent with the
associated child exists, return none, else fetch the full child entity by key
from the child repository. -/
def queryRelatedObj (pr : ParentRepo) (cr : Repo) (relationId i : Nat) : Option Entity :=
  match pr.find? (fun p => p.pid == relationId && p.childIds.contains i) with
  | none => none
  | some _ => Repo.get cr i

/-- Result of a To-Many-Relation handler call: response body and status
code, both repositories after the call, and the fired events. -/
structure RelOut where
  body : Body
  code : Nat
  parents : ParentRepo
  children : Repo
  hooks : List Hook
deriving DecidableEq

/-- ToManyRelationResource.get: the code branches on the truthiness of `id`
(`if id:`).  With a truthy id, the membership-checked lookup, 404 when it
yields nothing, else the dumped child with 200.  Otherwise an existence
probe of the parent (404 when absent) and the collection: when the relation
value supports paginate, the `query_from_request` delegation (abstract
`delegated`), else every member dumped directly. -/
def ToManyRelationResource.get (dump : Entity → Doc) (paginateCapable : Bool)
    (delegated : Body) (pr : ParentRepo) (cr : Repo) (relationId : Nat)
    (i : Option Nat) : Body × Nat :=
  if pyTruthy i then
    match queryRelatedObj pr cr relationId (i.getD 0) with
    | none => (Body.msg NOT_FOUND_ERROR, 404)
    | some e => (Body.doc (dump e), 200)
  else
    match ParentRepo.get pr relationId with
    | none => (Body.msg NOT_FOUND_ERROR, 404)
    | some p =>
      if paginateCapable then (delegated, 200)
      else (Body.docs ((p.childIds.filterMap (Repo.get cr)).map dump), 200)

/-- ToManyRelationResource.append_existent: fetch the child by key from the
unscoped child repository, 404 when absent, else append it to the relation
collection, commit, and answer the dumped child with 200 (no lifecycle
hooks). -/
def ToManyRelationResource.appendExistent (dump : Entity → Doc) (pr : ParentRepo)
    (cr : Repo) (relationId : Nat) (rid : Value) : RelOut :=
  match Repo.getByValue cr rid with
  | none => { body := Body.msg NOT_FOUND_ERROR, code := 404, parents := pr,
              children := cr, hooks := [] }
  | some e =>
    { body := Body.doc (dump e), code := 200,
      parents := ParentRepo.appendChild pr relationId e.eid, children := cr,
      hooks := [Hook.commitEvent] }

/-- ToManyRelationResource.post: verify the parent exists (404 when absent);
when the document carries a non-null id (`data_dict.get('id', None) is not
None`), attach by reference through `append_existent`; otherwise load a new
child from the document, add it to the session, append it to the relation
collection, save with method POST, and answer the dumped new child with
201. -/
def ToManyRelationResource.post (dump : Entity → Doc) (fresh : Nat)
    (pr : ParentRepo) (cr : Repo) (relationId : Nat) (req : Doc) : RelOut :=
  match ParentRepo.get pr relationId with
  | none => { body := Body.msg NOT_FOUND_ERROR, code := 404, parents := pr,
              children := cr, hooks := [] }
  | some _ =>
    match (Doc.get req "id").getD Value.vnull with
    | .vnull =>
      let newObj := loadNew req fresh
      let cr2 := Repo.add cr newObj
      let pr2 := ParentRepo.appendChild pr relationId newObj.eid
      let res := saveModel cr2 newObj Method.POST
      { body := Body.doc (dump newObj), code := 201, parents := pr2,
        children := res.1, hooks := res.2 }
    | v => ToManyRelationResource.appendExistent dump pr cr relationId v

/-- ToManyRelationResource.put: membership-checked lookup (404 when it
yields nothing), then dump the existing child, shallow-merge the request
document on top, and save through `_save_serialized` with the existing
entity set. -/
def ToManyRelationResource.put (dump : Entity → Doc) (fresh : Nat)
    (pr : ParentRepo) (cr : Repo) (relationId i : Nat) (req : Doc) : RelOut :=
  match queryRelatedObj pr cr relationId i with
  | none => { body := Body.msg NOT_FOUND_ERROR, code := 404, parents := pr,
              children := cr, hooks := [] }
  | some e =>
    let serialized := Doc.update (dump e) req
    let out := saveSerialized dump fresh cr serialized (some e)
    { body := Body.doc out.dumped, code := 200, parents := pr,
      children := out.repo, hooks := out.hooks }

/-- ToManyRelationResource.delete: membership-checked lookup (404 when it
yields nothing), else delete the child from the session, flush, commit, and
answer an empty body with 204. -/
def ToManyRelationResource.delete (pr : ParentRepo) (cr : Repo)
    (relationId i : Nat) : RelOut :=
  match queryRelatedObj pr cr relationId i with
  | none => { body := Body.msg NOT_FOUND_ERROR, code := 404, parents := pr,
              children := cr, hooks := [] }
  | some e =>
    { body := Body.empty, code := 204, parents := pr,
      children := Repo.removeId cr e.eid,
      hooks := [Hook.deleteEvent, Hook.flushEvent, Hook.commitEvent] }

/-- CollectionPropertyResource.get: fetch the parent by key (404 when
absent), read the named property (abstract `propValue`), and branch on
paginate capability exactly as the to-many collection listing.  The `id`
path parameter is never used by the body. -/
def CollectionPropertyResource.get (dump : Entity → Doc)
    (propValue : Parent → List Entity) (paginateCapable : Bool)
    (delegated : Body) (pr : ParentRepo) (relationId : Nat)
    (_i : Option Nat) : Body × Nat :=
  match ParentRepo.get pr relationId with
  | none => (Body.msg NOT_FOUND_ERROR, 404)
  | some p =>
    if paginateCapable then (delegated, 200)
    else (Body.docs ((propValue p).map dump), 200)

/-- CollectionPropertyResource.post: always rejected with 405. -/
def CollectionPropertyResource.post : Body × Nat :=
  (Body.msg "POST not allowed for property resources", 405)

/-- A Python value as seen by `unpack`: either some non-tuple payload or a
tuple of items. -/
inductive UVal where
  | natV (n : Nat)
  | strV (s : String)
  | bodyV (b : Body)
  | headersV (h : List (String × String))
  | tupleV (l : List UVal)

/-- unpack: a non-tuple value becomes (value, 200, empty dict); a tuple is
destructured first as a (data, code, headers) triple, then as a (data, code)
pair with empty headers, and any other arity falls back to (value, 200,
empty dict) — mirroring the isinstance test and the two try/except
ValueError destructurings. -/
def unpack (v : UVal) : UVal × UVal × UVal :=
  match v with
  | .tupleV [d, c, h] => (d, c, h)
  | .tupleV [d, c] => (d, c, UVal.headersV [])
  | .tupleV l => (UVal.tupleV l, UVal.natV 200, UVal.headersV [])
  | w => (w, UVal.natV 200, UVal.headersV [])

/-- The serializer argument handed to a resource constructor: whether the
object is a ModelSerializer instance, and its `strict` attribute. -/
structure SerializerArg where
  isModelSerializer : Bool
  strict : Bool
deriving DecidableEq

/-- The construction-time failure: the assertion rejecting a serializer that
is not a ModelSerializer instance. -/
inductive ConstructionError where
  | serializerTypeError
deriving DecidableEq

/-- The successfully constructed resource state relevant here: the stored
serializer (the declarative model and the session getter are carried over
unchanged and unmodelled). -/
structure ResourceState where
  serializer : SerializerArg
deriving DecidableEq

/-- BaseResource constructor: store the serializer, set its `strict`
attribute, then assert it is a ModelSerializer instance — so construction
fails immediately, before any request is handled, when the capability is
missing, and succeeds otherwise. -/
def BaseResource.init (s : SerializerArg) : Except ConstructionError ResourceState :=
  let stored := { s with strict := true }
  if stored.isModelSerializer then Except.ok { serializer := stored }
  else Except.error ConstructionError.serializerTypeError

/-- Wire strings are modelled as lists of ASCII character codes
(43 is the plus sign, 45 the minus sign, 46 the dot, 58 the colon, 84 'T',
32 the space, 90 'Z', 122 'z'). -/
abbrev Str := List Nat

/-- Character codes of a Lean string literal, for concrete wire inputs. -/
def strCodes (s : String) : Str :=
  s.data.map Char.toNat

def isDigitCode (c : Nat) : Bool :=
  48 ≤ c && c ≤ 57

def digitCode (n : Nat) : Nat :=
  48 + n

def codeToDigit (c : Nat) : Nat :=
  c - 48

/-- Zero-padded two-digit decimal rendering (%02d). -/
def pad2 (n : Nat) : Str :=
  [digitCode (n / 10), digitCode (n % 10)]

/-- Zero-padded four-digit decimal rendering (%04d). -/
def pad4 (n : Nat) : Str :=
  [digitCode (n / 1000), digitCode (n / 100 % 10), digitCode (n / 10 % 10),
   digitCode (n % 10)]

/-- Zero-padded six-digit decimal rendering (%06d). -/
def pad6 (n : Nat) : Str :=
  [digitCode (n / 100000), digitCode (n / 10000 % 10), digitCode (n / 1000 % 10),
   digitCode (n / 100 % 10), digitCode (n / 10 % 10), digitCode (n % 10)]

/-- A Python datetime value: calendar fields plus an optional fixed-offset
timezone, stored as the utcoffset in minutes (`none` is a naive datetime). -/
structure PyDateTime where
  year : Nat
  month : Nat
  day : Nat
  hour : Nat
  minute : Nat
  second : Nat
  microsecond : Nat
  tz : Option Int
deriving DecidableEq

def isLeapYear (y : Nat) : Bool :=
  (y % 4 == 0 && y % 100 != 0) || y % 400 == 0

def daysInMonth (y m : Nat) : Nat :=
  if m == 2 then (if isLeapYear y then 29 else 28)
  else if m == 4 || m == 6 || m == 9 || m == 11 then 30
  else 31

/-- The range checks the Python datetime constructor enforces. -/
def PyDateTime.validB (d : PyDateTime) : Bool :=
  1 ≤ d.year && d.year ≤ 9999 && 1 ≤ d.month && d.month ≤ 12
  && 1 ≤ d.day && d.day ≤ daysInMonth d.year d.month
  && d.hour ≤ 23 && d.minute ≤ 59 && d.second ≤ 59 && d.microsecond ≤ 999999

/-- The `±HH:MM` utcoffset rendering used by datetime.isoformat for an
aware value (UTC renders as `+00:00`). -/
def fmtOffset (o : Int) : Str :=
  if o < 0 then 45 :: (pad2 (o.natAbs / 60) ++ 58 :: pad2 (o.natAbs % 60))
  else 43 :: (pad2 (o.toNat / 60) ++ 58 :: pad2 (o.toNat % 60))

/-- datetime.isoformat(): `YYYY-MM-DDTHH:MM:SS`, the `.ffffff` microsecond
part only when the microsecond is nonzero, and the `±HH:MM` offset only when
the value is aware. -/
def isoformat (d : PyDateTime) : Str :=
  pad4 d.year ++ 45 :: (pad2 d.month ++ 45 :: (pad2 d.day ++ 84 ::
    (pad2 d.hour ++ 58 :: (pad2 d.minute ++ 58 :: (pad2 d.second
      ++ (if d.microsecond == 0 then [] else 46 :: pad6 d.microsecond)
      ++ (match d.tz with
          | none => []
          | some o => fmtOffset o))))))

/-- DateTimeSerializer.dump: `value.isoformat() + 'Z'` — the 'Z' is appended
unconditionally, even after a numeric offset. -/
def DateTimeSerializer.dump (d : PyDateTime) : Str :=
  isoformat d ++ [90]

/-- The longest leading digit run of a string and the remainder (a greedy
`\d+`). -/
def takeDigits : Str → Str × Str
  | [] => ([], [])
  | c :: cs =>
    if isDigitCode c then
      let rest := takeDigits cs
      (c :: rest.1, rest.2)
    else ([], c :: cs)

/-- Python int() on a digit run. -/
def digitsToNat (ds : Str) : Nat :=
  ds.foldl (fun a c => 10 * a + codeToDigit c) 0

/-- The year group `\d{2,4}` followed (in the pattern) by a literal dash:
the greedy run must hold between two and four digits — with five or more,
no backtracking split can put the required non-digit dash after the run, so
the match fails. -/
def parseYear (s : Str) : Option (Nat × Str) :=
  let p := takeDigits s
  if 2 ≤ p.1.length && p.1.length ≤ 4 then some (digitsToNat p.1, p.2) else none

/-- A required literal character. -/
def expectCode (c : Nat) : Str → Option Str
  | x :: rest => if x == c then some rest else none
  | [] => none

/-- The `[T ]` date/time separator. -/
def expectSep : Str → Option Str
  | x :: rest => if x == 84 || x == 32 then some rest else none
  | [] => none

/-- An exactly-two-digit group `\d{2}`. -/
def parse2 : Str → Option (Nat × Str)
  | c1 :: c2 :: rest =>
    if isDigitCode c1 && isDigitCode c2 then
      some (10 * codeToDigit c1 + codeToDigit c2, rest)
    else none
  | _ => none

/-- The optional seconds group `(:(?P<S>\d{2}))?`: when it does not match,
nothing is consumed and the seconds default to 0 (`int(parts.get("S") or
0)`). -/
def parseSeconds (s : Str) : Nat × Str :=
  match s with
  | 58 :: c1 :: c2 :: rest =>
    if isDigitCode c1 && isDigitCode c2 then
      (10 * codeToDigit c1 + codeToDigit c2, rest)
    else (0, s)
  | _ => (0, s)

/-- The optional fraction group `(\.(?P<f>\d+))?`: a dot followed by a digit
run, read as a plain int for the microsecond; when it does not match,
nothing is consumed and the microsecond defaults to 0. -/
def parseFraction (s : Str) : Nat × Str :=
  match s with
  | 46 :: rest =>
    let p := takeDigits rest
    if p.1.length == 0 then (0, s) else (digitsToNat p.1, p.2)
  | _ => (0, s)

/-- The optional timezone group `(([\+-]\d{2}:?\d{2})|[Zz])?`: the matched
substring, or none when the group matches empty (nothing consumed). -/
def parseTzGroup (s : Str) : Option Str × Str :=
  match s with
  | [] => (none, [])
  | c :: rest =>
    if c == 43 || c == 45 then
      match rest with
      | c1 :: c2 :: r1 =>
        if isDigitCode c1 && isDigitCode c2 then
          match r1 with
          | 58 :: d1 :: d2 :: r2 =>
            if isDigitCode d1 && isDigitCode d2 then
              (some [c, c1, c2, 58, d1, d2], r2)
            else (none, s)
          | d1 :: d2 :: r2 =>
            if isDigitCode d1 && isDigitCode d2 then
              (some [c, c1, c2, d1, d2], r2)
            else (none, s)
          | _ => (none, s)
        else (none, s)
      | _ => (none, s)
    else if c == 90 || c == 122 then (some [c], rest)
    else (none, s)

/-- DateTimeSerializer._parse_tzinfo on the matched timezone substring:
Z or z gives UTC; otherwise `hours = int(str[:3])` (a sign and two digits)
and `minutes = int(str[-2:])`, with the minutes negated when the sign is
negative and the hours are zero; the result is the utcoffset in minutes of
`timezone(timedelta(hours, minutes))`, which requires the offset to be
strictly inside one day.  The outer `none` models a raised ValueError, the
inner `none` a naive result. -/
def parseTzinfo (tzs : Option Str) : Option (Option Int) :=
  match tzs with
  | none => some none
  | some l =>
    if l = [90] ∨ l = [122] then some (some 0)
    else
      let sign : Int := if l.headD 0 = 45 then -1 else 1
      let hours : Int := sign * (10 * codeToDigit (l.getD 1 0) + codeToDigit (l.getD 2 0))
      let lastTwo := l.drop (l.length - 2)
      let minutesNat : Nat := 10 * codeToDigit (lastTwo.getD 0 0) + codeToDigit (lastTwo.getD 1 0)
      let minutes : Int := if l.headD 0 = 45 ∧ hours = 0 then -(minutesNat : Int) else (minutesNat : Int)
      let off := 60 * hours + minutes
      if -1440 < off ∧ off < 1440 then some (some off) else none

/-- DateTimeSerializer.load: match DATETIME_RE against the wire string
(anchored at the start, trailing characters are ignored by re.match) and
build the datetime from the captured groups; `none` models the raised
ValueError on a failed match or an out-of-range component. -/
def DateTimeSerializer.load (s : Str) : Option PyDateTime := do
  let (y, r1) ← parseYear s
  let r2 ← expectCode 45 r1
  let (mo, r3) ← parse2 r2
  let r4 ← expectCode 45 r3
  let (dy, r5) ← parse2 r4
  let r6 ← expectSep r5
  let (h, r7) ← parse2 r6
  let r8 ← expectCode 58 r7
  let (mi, r9) ← parse2 r8
  let p10 := parseSeconds r9
  let p11 := parseFraction p10.2
  let p12 := parseTzGroup p11.2
  let tzo ← parseTzinfo p12.1
  let d : PyDateTime :=
    { year := y, month := mo, day := dy, hour := h, minute := mi,
      second := p10.1, microsecond := p11.1, tz := tzo }
  if d.validB then pure d else none

/-- The utcoffsets that survive the formatter/parser pair: nonnegative ones,
whole negative hours, and negative offsets of less than one hour (the parser
negates only the hour part of `-HH:MM` and applies the sign to the minutes
only when the hour part is zero). -/
def offsetRoundTrips (o : Int) : Bool :=
  0 ≤ o || o.natAbs % 60 == 0 || o.natAbs < 60

/-! Helper lemmas about the repository and document models. -/

theorem lookup_append (l1 l2 : List (String × Value)) (k : String) :
    List.lookup k (l1 ++ l2) = (List.lookup k l1).or (List.lookup k l2) := by
  induction l1 with
  | nil => simp
  | cons p l ih =>
    obtain ⟨a, b⟩ := p
    cases hka : k == a with
    | true => simp [List.lookup, hka]
    | false => simp [List.lookup, hka, ih]

theorem Doc.get_update (base incoming : Doc) (k : String) :
    Doc.get (Doc.update base incoming) k
      = (Doc.get incoming k).or (Doc.get base k) :=
  lookup_append incoming base k

theorem Repo.eid_of_get {r : Repo} {i : Nat} {e : Entity}
    (h : Repo.get r i = some e) : e.eid = i := by
  have := List.find?_some h
  simpa using this

theorem find?_map_replace (l : List Entity) (e' : Entity)
    (h : (l.find? (fun x => x.eid == e'.eid)).isSome = true) :
    (l.map (fun x => if x.eid == e'.eid then e' else x)).find?
        (fun x => x.eid == e'.eid) = some e' := by
  induction l with
  | nil => simp at h
  | cons x xs ih =>
    simp only [List.map_cons]
    by_cases hx : (x.eid == e'.eid) = true
    · rw [if_pos hx]
      exact List.find?_cons_of_pos (p := fun x : Entity => x.eid == e'.eid) _ (by simp)
    · rw [if_neg hx]
      rw [List.find?_cons_of_neg (p := fun x : Entity => x.eid == e'.eid) _ hx] at h
      rw [List.find?_cons_of_neg (p := fun x : Entity => x.eid == e'.eid) _ hx]
      exact ih h

theorem Repo.get_add_self (r : Repo) (e' : Entity)
    (h : (Repo.get r e'.eid).isSome = true) :
    Repo.get (Repo.add r e') e'.eid = some e' := by
  unfold Repo.get Repo.add at *
  rw [if_pos h]
  exact find?_map_replace r e' h

theorem Repo.get_removeId (r : Repo) (i : Nat) :
    Repo.get (Repo.removeId r i) i = none := by
  unfold Repo.get Repo.removeId
  rw [List.find?_eq_none]
  intro x hx
  simpa using (List.mem_filter.mp hx).2

theorem Repo.add_of_get_none (r : Repo) (n : Entity)
    (h : Repo.get r n.eid = none) : Repo.add r n = r ++ [n] := by
  unfold Repo.get at h
  unfold Repo.add
  rw [h]
  rfl

theorem Repo.add_append_self (r : Repo) (n : Entity)
    (h : Repo.get r n.eid = none) : Repo.add (r ++ [n]) n = r ++ [n] := by
  unfold Repo.get at h
  unfold Repo.add
  have hmem : ((r ++ [n]).find? (fun x => x.eid == n.eid)).isSome = true := by
    rw [List.find?_append, h]
    simp
  rw [if_pos hmem, List.map_append]
  have hl : r.map (fun x => if x.eid == n.eid then n else x) = r := by
    have := List.find?_eq_none.mp h
    calc r.map (fun x => if x.eid == n.eid then n else x) = r.map id := by
          apply List.map_congr_left
          intro a ha
          have : ¬((fun x : Entity => x.eid == n.eid) a = true) := this a ha
          simp only [id]
          rw [if_neg this]
      _ = r := List.map_id r
  rw [hl]
  simp

theorem Repo.get_append_self (r : Repo) (n : Entity)
    (h : Repo.get r n.eid = none) : Repo.get (r ++ [n]) n.eid = some n := by
  unfold Repo.get at *
  rw [List.find?_append, h]
  simp

theorem ParentRepo.pid_of_get {pr : ParentRepo} {i : Nat} {p : Parent}
    (h : ParentRepo.get pr i = some p) : p.pid = i := by
  have := List.find?_some h
  simpa using this

theorem ParentRepo.mem_of_get {pr : ParentRepo} {i : Nat} {p : Parent}
    (h : ParentRepo.get pr i = some p) : p ∈ pr :=
  List.mem_of_find?_eq_some h

theorem ParentRepo.get_appendChild {pr : ParentRepo} {relationId : Nat} {p : Parent}
    (cid : Nat) (h : ParentRepo.get pr relationId = some p) :
    ParentRepo.get (ParentRepo.appendChild pr relationId cid) relationId
      = some { p with childIds := p.childIds ++ [cid] } := by
  unfold ParentRepo.get ParentRepo.appendChild at *
  induction pr with
  | nil => simp at h
  | cons x xs ih =>
    simp only [List.map_cons]
    by_cases hx : (x.pid == relationId) = true
    · rw [List.find?_cons_of_pos (p := fun q : Parent => q.pid == relationId) _ hx] at h
      injection h with h
      subst h
      rw [if_pos hx]
      exact List.find?_cons_of_pos (p := fun q : Parent => q.pid == relationId) _ (by simpa using hx)
    · rw [List.find?_cons_of_neg (p := fun q : Parent => q.pid == relationId) _ hx] at h
      rw [if_neg hx]
      rw [List.find?_cons_of_neg (p := fun q : Parent => q.pid == relationId) _ hx]
      exact ih h

theorem queryRelatedObj_some {pr : ParentRepo} {cr : Repo} {relationId i : Nat}
    {e : Entity} (h : queryRelatedObj pr cr relationId i = some e) :
    Repo.get cr i = some e := by
  unfold queryRelatedObj at h
  cases hf : List.find? (fun p => p.pid == relationId && p.childIds.contains i) pr with
  | none => rw [hf] at h; exact absurd h (by simp)
  | some q => rw [hf] at h; exact h

theorem queryRelatedObj_of_no_parent {pr : ParentRepo} {cr : Repo}
    {relationId : Nat} (i : Nat) (h : ParentRepo.get pr relationId = none) :
    queryRelatedObj pr cr relationId i = none := by
  unfold ParentRepo.get at h
  unfold queryRelatedObj
  have : List.find? (fun p => p.pid == relationId && p.childIds.contains i) pr = none := by
    rw [List.find?_eq_none] at h ⊢
    intro q hq
    have := h q hq
    simp only [Bool.and_eq_true, not_and]
    intro hpid
    exact absurd hpid this
  rw [this]

theorem queryRelatedObj_of_not_member {pr : ParentRepo} {cr : Repo}
    {relationId i : Nat} {p : Parent}
    (hnd : (pr.map Parent.pid).Nodup)
    (h : ParentRepo.get pr relationId = some p) (hni : i ∉ p.childIds) :
    queryRelatedObj pr cr relationId i = none := by
  unfold queryRelatedObj
  have hinj := List.inj_on_of_nodup_map hnd
  have hpm : p ∈ pr := ParentRepo.mem_of_get h
  have hpp : p.pid = relationId := ParentRepo.pid_of_get h
  have : List.find? (fun q => q.pid == relationId && q.childIds.contains i) pr = none := by
    rw [List.find?_eq_none]
    intro q hq
    simp only [Bool.and_eq_true, not_and, beq_iff_eq]
    intro hqpid hcont
    have hqp : q = p := hinj hq hpm (by rw [hqpid, hpp])
    subst hqp
    exact hni (by simpa using hcont)
  rw [this]

theorem queryRelatedObj_of_member {pr : ParentRepo} {cr : Repo}
    {relationId i : Nat} {p : Parent}
    (h : ParentRepo.get pr relationId = some p) (hmi : i ∈ p.childIds) :
    queryRelatedObj pr cr relationId i = Repo.get cr i := by
  unfold queryRelatedObj
  have hsome : (List.find? (fun q => q.pid == relationId && q.childIds.contains i) pr).isSome = true := by
    rw [List.find?_isSome]
    exact ⟨p, ParentRepo.mem_of_get h, by
      simp [ParentRepo.pid_of_get h, hmi]⟩
  cases hf : List.find? (fun q => q.pid == relationId && q.childIds.contains i) pr with
  | none => rw [hf] at hsome; simp at hsome
  | some q => rfl

/-! Claim theorems. -/

/-- C5: DELETE on the Single-Entity handler answers 404 with the fixed
not-found body exactly when no entity with that primary key exists (leaving
the repository untouched), and otherwise deletes the entity from the
session, flushes, commits, and answers an empty body with status 204; a
second DELETE on the same id then answers 404, and since the 404 branch does
not change the repository, every further DELETE keeps answering 404. -/
theorem C5_delete_semantics (r : Repo) (i : Nat) :
    (Repo.get r i = none →
      ModelResource.delete r i =
        { body := Body.msg NOT_FOUND_ERROR, code := 404, repo := r, hooks := [] })
    ∧ (∀ e, Repo.get r i = some e →
        ModelResource.delete r i =
          { body := Body.empty, code := 204, repo := Repo.removeId r i,
            hooks := [Hook.deleteEvent, Hook.flushEvent, Hook.commitEvent] }
        ∧ ModelResource.delete (ModelResource.delete r i).repo i =
            { body := Body.msg NOT_FOUND_ERROR, code := 404,
              repo := (ModelResource.delete r i).repo, hooks := [] }) := by
  constructor
  · intro h
    simp [ModelResource.delete, h]
  · intro e he
    constructor
    · simp [ModelResource.delete, he]
    · simp [ModelResource.delete, he, Repo.get_removeId]

theorem C5_delete_semantics_witness :
    ModelResource.delete [Entity.mk 1 []] 1 =
      { body := Body.empty, code := 204, repo := Repo.removeId [Entity.mk 1 []] 1,
        hooks := [Hook.deleteEvent, Hook.flushEvent, Hook.commitEvent] }
    ∧ ModelResource.delete (ModelResource.delete [Entity.mk 1 []] 1).repo 1 =
      { body := Body.msg NOT_FOUND_ERROR, code := 404,
        repo := (ModelResource.delete [Entity.mk 1 []] 1).repo, hooks := [] } :=
  (C5_delete_semantics [Entity.mk 1 []] 1).2 (Entity.mk 1 []) (by decide)

/-- C6: the response unpacker maps a non-tuple value to (value, 200, empty
headers), a (data, code) pair to (data, code, empty headers), and passes a
(data, code, headers) triple through unchanged. -/
theorem C6_unpack_normalization :
    (∀ v : UVal, (∀ l, v ≠ UVal.tupleV l) →
      unpack v = (v, UVal.natV 200, UVal.headersV []))
    ∧ (∀ d c : UVal, unpack (UVal.tupleV [d, c]) = (d, c, UVal.headersV []))
    ∧ (∀ d c h : UVal, unpack (UVal.tupleV [d, c, h]) = (d, c, h)) := by
  refine ⟨?_, fun d c => rfl, fun d c h => rfl⟩
  intro v hv
  cases v with
  | tupleV l => exact absurd rfl (hv l)
  | natV n => rfl
  | strV s => rfl
  | bodyV b => rfl
  | headersV h => rfl

theorem C6_unpack_normalization_witness :
    unpack (UVal.natV 7) = (UVal.natV 7, UVal.natV 200, UVal.headersV []) :=
  C6_unpack_normalization.1 (UVal.natV 7) (fun _ h => UVal.noConfusion h)

/-- C7: constructing a resource handler fails immediately, at construction
time, with the serializer-configuration error when the supplied serializer
does not implement the ModelSerializer capability, and succeeds (storing the
serializer with strict set) for every serializer that does. -/
theorem C7_constructor_serializer_check (s : SerializerArg) :
    (s.isModelSerializer = false →
      BaseResource.init s = Except.error ConstructionError.serializerTypeError)
    ∧ (s.isModelSerializer = true →
      BaseResource.init s =
        Except.ok { serializer := { s with strict := true } }) := by
  constructor <;> intro h <;> simp [BaseResource.init, h]

theorem C7_constructor_serializer_check_witness :
    BaseResource.init (SerializerArg.mk false true) =
      Except.error ConstructionError.serializerTypeError :=
  (C7_constructor_serializer_check (SerializerArg.mk false true)).1 rfl

/-- C8: _save_serialized loads the document into the existing entity when
one is given and into a new instance otherwise; the method tag selecting the
lifecycle hook pair is PUT exactly when the existing entity argument is
non-null (and POST otherwise); and the returned document is the dump of the
saved entity. -/
theorem C8_saveSerialized_protocol (dump : Entity → Doc) (fresh : Nat)
    (r : Repo) (d : Doc) :
    (∀ e : Entity,
      (saveSerialized dump fresh r d (some e)).entity = loadInto d e
      ∧ (saveSerialized dump fresh r d (some e)).method = Method.PUT
      ∧ (saveSerialized dump fresh r d (some e)).hooks
          = [Hook.beforePutCommit, Hook.commitEvent, Hook.afterPutCommit]
      ∧ (saveSerialized dump fresh r d (some e)).dumped = dump (loadInto d e))
    ∧ ((saveSerialized dump fresh r d none).entity = loadNew d fresh
      ∧ (saveSerialized dump fresh r d none).method = Method.POST
      ∧ (saveSerialized dump fresh r d none).hooks
          = [Hook.beforePostCommit, Hook.commitEvent, Hook.afterPostCommit]
      ∧ (saveSerialized dump fresh r d none).dumped = dump (loadNew d fresh)) :=
  ⟨fun _ => ⟨rfl, rfl, rfl, rfl⟩, rfl, rfl, rfl, rfl⟩

/-- C9: GET on the Derived-Collection handler ignores the supplied child id
entirely — any two id values give the same response, and with an existing
parent the response always has status 200 (the collection, dumped or
query-delegated); 404 arises only when the parent itself is absent. -/
theorem C9_property_get_ignores_id (dump : Entity → Doc)
    (propValue : Parent → List Entity) (pc : Bool) (delegated : Body)
    (pr : ParentRepo) (relationId : Nat) :
    (∀ i j : Option Nat,
      CollectionPropertyResource.get dump propValue pc delegated pr relationId i
        = CollectionPropertyResource.get dump propValue pc delegated pr relationId j)
    ∧ (∀ p, ParentRepo.get pr relationId = some p → ∀ i : Option Nat,
        (CollectionPropertyResource.get dump propValue pc delegated pr relationId i).2 = 200)
    ∧ (ParentRepo.get pr relationId = none → ∀ i : Option Nat,
        CollectionPropertyResource.get dump propValue pc delegated pr relationId i
          = (Body.msg NOT_FOUND_ERROR, 404)) := by
  refine ⟨fun i j => rfl, ?_, ?_⟩
  · intro p hp i
    cases pc <;> simp [CollectionPropertyResource.get, hp]
  · intro h i
    simp [CollectionPropertyResource.get, h]

theorem C9_property_get_ignores_id_witness :
    (CollectionPropertyResource.get Entity.fields (fun _ => []) false Body.empty
      [Parent.mk 1 []] 1 (some 99)).2 = 200 :=
  (C9_property_get_ignores_id Entity.fields (fun _ => []) false Body.empty
    [Parent.mk 1 []] 1).2.1 (Parent.mk 1 []) (by decide) (some 99)

/-- C10: GET on the To-Many-Relation handler branches on the truthiness of
the child id: the falsy id 0 (like an omitted id) yields the collection
listing for the parent rather than the membership-checked single-child
lookup, while any nonzero id yields the single-child lookup; GET on the
Single-Entity handler instead tests the id against null, so id 0 there is a
single-entity fetch by key 0. -/
theorem C10_falsy_id_dispatch (dump : Entity → Doc) (pc : Bool)
    (delegated listing : Body) (pr : ParentRepo) (cr : Repo)
    (relationId : Nat) (r : Repo) :
    (ToManyRelationResource.get dump pc delegated pr cr relationId (some 0)
      = ToManyRelationResource.get dump pc delegated pr cr relationId none)
    ∧ (∀ n : Nat, n ≠ 0 →
        ToManyRelationResource.get dump pc delegated pr cr relationId (some n)
          = match queryRelatedObj pr cr relationId n with
            | none => (Body.msg NOT_FOUND_ERROR, 404)
            | some e => (Body.doc (dump e), 200))
    ∧ (∀ e, Repo.get r 0 = some e →
        ModelResource.get dump listing r (some 0) = (Body.doc (dump e), 200))
    ∧ (Repo.get r 0 = none →
        ModelResource.get dump listing r (some 0)
          = (Body.msg NOT_FOUND_ERROR, 404)) := by
  refine ⟨rfl, ?_, ?_, ?_⟩
  · intro n hn
    have ht : pyTruthy (some n) = true := by simp [pyTruthy, hn]
    simp only [ToManyRelationResource.get, ht, if_pos, Option.getD_some]
  · intro e he
    simp [ModelResource.get, he]
  · intro h
    simp [ModelResource.get, h]

theorem C10_falsy_id_dispatch_witness :
    ModelResource.get Entity.fields Body.empty [Entity.mk 0 []] (some 0)
      = (Body.doc (Entity.fields (Entity.mk 0 [])), 200) :=
  (C10_falsy_id_dispatch Entity.fields false Body.empty Body.empty [] []
    0 [Entity.mk 0 []]).2.2.1 (Entity.mk 0 []) (by decide)

/-- C1: PUT (on the Single-Entity handler and on the To-Many-Relation
handler) stores the shallow merge of the incoming document over the dump of
the existing entity, loaded back into that entity: every field present in
the request document overwrites the stored field, every field absent from
the request document keeps the value from the existing entity's dump, and
the repository afterwards holds exactly that merged entity under the
original key. -/
theorem C1_put_stores_shallow_merge (dump : Entity → Doc) (fresh : Nat) (req : Doc) :
    (∀ (e : Entity) (k : String),
      (∀ v, Doc.get req k = some v →
        Doc.get (loadInto (Doc.update (dump e) req) e).fields k = some v)
      ∧ (Doc.get req k = none → ∀ w, Doc.get (dump e) k = some w →
        Doc.get (loadInto (Doc.update (dump e) req) e).fields k = some w))
    ∧ (∀ (r : Repo) (i : Nat) (e : Entity), Repo.get r i = some e →
        Repo.get (ModelResource.put dump fresh r i req).repo i
          = some (loadInto (Doc.update (dump e) req) e))
    ∧ (∀ (pr : ParentRepo) (cr : Repo) (relationId i : Nat) (e : Entity),
        queryRelatedObj pr cr relationId i = some e →
        Repo.get (ToManyRelationResource.put dump fresh pr cr relationId i req).children i
          = some (loadInto (Doc.update (dump e) req) e)) := by
  refine ⟨?_, ?_, ?_⟩
  · intro e k
    constructor
    · intro v hv
      simp [loadInto, Doc.get_update, hv]
    · intro hn w hw
      simp [loadInto, Doc.get_update, hn, hw]
  · intro r i e he
    have hei : e.eid = i := Repo.eid_of_get he
    have h1 : (Repo.get r (loadInto (Doc.update (dump e) req) e).eid).isSome = true := by
      show (Repo.get r e.eid).isSome = true
      rw [hei, he]
      rfl
    have h2 := Repo.get_add_self r (loadInto (Doc.update (dump e) req) e) h1
    have h3 : (loadInto (Doc.update (dump e) req) e).eid = i := by
      simpa [loadInto] using hei
    rw [h3] at h2
    simpa [ModelResource.put, he, saveSerialized, saveModel] using h2
  · intro pr cr relationId i e he
    have hcr : Repo.get cr i = some e := queryRelatedObj_some he
    have hei : e.eid = i := Repo.eid_of_get hcr
    have h1 : (Repo.get cr (loadInto (Doc.update (dump e) req) e).eid).isSome = true := by
      show (Repo.get cr e.eid).isSome = true
      rw [hei, hcr]
      rfl
    have h2 := Repo.get_add_self cr (loadInto (Doc.update (dump e) req) e) h1
    have h3 : (loadInto (Doc.update (dump e) req) e).eid = i := by
      simpa [loadInto] using hei
    rw [h3] at h2
    simpa [ToManyRelationResource.put, he, saveSerialized, saveModel] using h2

theorem C1_put_stores_shallow_merge_witness :
    Repo.get (ModelResource.put Entity.fields 9
        [Entity.mk 1 [("a", Value.vnat 1), ("b", Value.vnat 2)]] 1
        [("b", Value.vnat 7)]).repo 1
      = some (loadInto
          (Doc.update (Entity.fields (Entity.mk 1 [("a", Value.vnat 1), ("b", Value.vnat 2)]))
            [("b", Value.vnat 7)])
          (Entity.mk 1 [("a", Value.vnat 1), ("b", Value.vnat 2)])) :=
  (C1_put_stores_shallow_merge Entity.fields 9 [("b", Value.vnat 7)]).2.1
    [Entity.mk 1 [("a", Value.vnat 1), ("b", Value.vnat 2)]] 1
    (Entity.mk 1 [("a", Value.vnat 1), ("b", Value.vnat 2)]) (by decide)

/-- C2: for every parent id and child id, the membership-checked lookup used
by the To-Many-Relation handler yields no entity — and PUT and DELETE answer
404 with the fixed not-found body leaving all state untouched, as does
GET-by-id whenever its truthy id takes the single-child lookup path —
whenever the parent does not exist or the child id is not in the parent's
relation collection, regardless of whether a child with that id exists in
the child repository; when the parent exists and the child is associated,
the lookup returns exactly the child entity fetched by its key from the
child repository. -/
theorem C2_membership_checked_lookup (dump : Entity → Doc) (pc : Bool)
    (delegated : Body) (fresh : Nat) (req : Doc) (pr : ParentRepo) (cr : Repo)
    (relationId i : Nat) (hnd : (pr.map Parent.pid).Nodup) :
    ((ParentRepo.get pr relationId = none
        ∨ ∃ p, ParentRepo.get pr relationId = some p ∧ i ∉ p.childIds) →
      queryRelatedObj pr cr relationId i = none
      ∧ (i ≠ 0 →
          ToManyRelationResource.get dump pc delegated pr cr relationId (some i)
            = (Body.msg NOT_FOUND_ERROR, 404))
      ∧ ToManyRelationResource.put dump fresh pr cr relationId i req
          = { body := Body.msg NOT_FOUND_ERROR, code := 404, parents := pr,
              children := cr, hooks := [] }
      ∧ ToManyRelationResource.delete pr cr relationId i
          = { body := Body.msg NOT_FOUND_ERROR, code := 404, parents := pr,
              children := cr, hooks := [] })
    ∧ (∀ p, ParentRepo.get pr relationId = some p → i ∈ p.childIds →
        queryRelatedObj pr cr relationId i = Repo.get cr i
        ∧ (∀ c, Repo.get cr i = some c → i ≠ 0 →
            ToManyRelationResource.get dump pc delegated pr cr relationId (some i)
              = (Body.doc (dump c), 200))) := by
  constructor
  · intro hcase
    have hq : queryRelatedObj pr cr relationId i = none := by
      rcases hcase with h | ⟨p, hp, hni⟩
      · exact queryRelatedObj_of_no_parent i h
      · exact queryRelatedObj_of_not_member hnd hp hni
    refine ⟨hq, ?_, ?_, ?_⟩
    · intro hi
      have ht : pyTruthy (some i) = true := by simp [pyTruthy, hi]
      simp [ToManyRelationResource.get, ht, hq]
    · simp [ToManyRelationResource.put, hq]
    · simp [ToManyRelationResource.delete, hq]
  · intro p hp hmi
    have hq : queryRelatedObj pr cr relationId i = Repo.get cr i :=
      queryRelatedObj_of_member hp hmi
    refine ⟨hq, ?_⟩
    intro c hc hi
    have ht : pyTruthy (some i) = true := by simp [pyTruthy, hi]
    simp [ToManyRelationResource.get, ht, hq, hc]

theorem C2_membership_checked_lookup_witness :
    queryRelatedObj [Parent.mk 1 [2]] [Entity.mk 3 []] 1 3 = none
    ∧ ToManyRelationResource.get Entity.fields false Body.empty
        [Parent.mk 1 [2]] [Entity.mk 3 []] 1 (some 3)
        = (Body.msg NOT_FOUND_ERROR, 404)
    ∧ ToManyRelationResource.put Entity.fields 9 [Parent.mk 1 [2]]
        [Entity.mk 3 []] 1 3 []
        = { body := Body.msg NOT_FOUND_ERROR, code := 404,
            parents := [Parent.mk 1 [2]], children := [Entity.mk 3 []], hooks := [] }
    ∧ ToManyRelationResource.delete [Parent.mk 1 [2]] [Entity.mk 3 []] 1 3
        = { body := Body.msg NOT_FOUND_ERROR, code := 404,
            parents := [Parent.mk 1 [2]], children := [Entity.mk 3 []], hooks := [] } :=
  have h := (C2_membership_checked_lookup Entity.fields false Body.empty 9 []
      [Parent.mk 1 [2]] [Entity.mk 3 []] 1 3 (by decide)).1
    (Or.inr ⟨Parent.mk 1 [2], by decide, by decide⟩)
  ⟨h.1, h.2.1 (by decide), h.2.2.1, h.2.2.2⟩

/-- C3: POST to the To-Many-Relation handler with an existing parent: with a
non-null 'id' in the document it fetches that child by key from the unscoped
child repository, answers 404 when absent, and otherwise appends it to the
relation collection, commits, and answers the dumped child with 200 firing
no lifecycle hook; with no 'id' it creates exactly one new child from the
document (the child repository grows by exactly that row), appends it to the
collection, fires the create hook pair exactly once around the commit, and
answers the dumped new child with 201. -/
theorem C3_post_attach_vs_create (dump : Entity → Doc) (fresh : Nat)
    (pr : ParentRepo) (cr : Repo) (relationId : Nat) (req : Doc) (p : Parent)
    (hp : ParentRepo.get pr relationId = some p) :
    (∀ cid : Nat, Doc.get req "id" = some (Value.vnat cid) →
      (Repo.get cr cid = none →
        ToManyRelationResource.post dump fresh pr cr relationId req
          = { body := Body.msg NOT_FOUND_ERROR, code := 404, parents := pr,
              children := cr, hooks := [] })
      ∧ (∀ c, Repo.get cr cid = some c →
          ToManyRelationResource.post dump fresh pr cr relationId req
            = { body := Body.doc (dump c), code := 200,
                parents := ParentRepo.appendChild pr relationId cid,
                children := cr, hooks := [Hook.commitEvent] }
          ∧ ParentRepo.get
              (ToManyRelationResource.post dump fresh pr cr relationId req).parents
              relationId
            = some { p with childIds := p.childIds ++ [cid] }))
    ∧ (Doc.get req "id" = none → Repo.get cr fresh = none →
        ToManyRelationResource.post dump fresh pr cr relationId req
          = { body := Body.doc (dump (loadNew req fresh)), code := 201,
              parents := ParentRepo.appendChild pr relationId fresh,
              children := cr ++ [loadNew req fresh],
              hooks := [Hook.beforePostCommit, Hook.commitEvent, Hook.afterPostCommit] }
        ∧ (cr ++ [loadNew req fresh]).length = cr.length + 1
        ∧ Repo.get (cr ++ [loadNew req fresh]) fresh = some (loadNew req fresh)
        ∧ ParentRepo.get
            (ToManyRelationResource.post dump fresh pr cr relationId req).parents
            relationId
          = some { p with childIds := p.childIds ++ [fresh] }) := by
  constructor
  · intro cid hid
    constructor
    · intro hc
      simp [ToManyRelationResource.post, hp, hid,
        ToManyRelationResource.appendExistent, Repo.getByValue, hc]
    · intro c hc
      have hce : c.eid = cid := Repo.eid_of_get hc
      have hpost : ToManyRelationResource.post dump fresh pr cr relationId req
          = { body := Body.doc (dump c), code := 200,
              parents := ParentRepo.appendChild pr relationId cid,
              children := cr, hooks := [Hook.commitEvent] } := by
        simp [ToManyRelationResource.post, hp, hid,
          ToManyRelationResource.appendExistent, Repo.getByValue, hc, hce]
      refine ⟨hpost, ?_⟩
      rw [hpost]
      exact ParentRepo.get_appendChild cid hp
  · intro hid hfresh
    have hne : Repo.get cr (loadNew req fresh).eid = none := hfresh
    have hadd1 : Repo.add cr (loadNew req fresh) = cr ++ [loadNew req fresh] :=
      Repo.add_of_get_none cr (loadNew req fresh) hne
    have hadd2 : Repo.add (cr ++ [loadNew req fresh]) (loadNew req fresh)
        = cr ++ [loadNew req fresh] :=
      Repo.add_append_self cr (loadNew req fresh) hne
    have hpost : ToManyRelationResource.post dump fresh pr cr relationId req
        = { body := Body.doc (dump (loadNew req fresh)), code := 201,
            parents := ParentRepo.appendChild pr relationId fresh,
            children := cr ++ [loadNew req fresh],
            hooks := [Hook.beforePostCommit, Hook.commitEvent, Hook.afterPostCommit] } := by
      simp [ToManyRelationResource.post, hp, hid, saveModel, hadd1, hadd2]
      rfl
    refine ⟨hpost, by simp, Repo.get_append_self cr (loadNew req fresh) hne, ?_⟩
    rw [hpost]
    exact ParentRepo.get_appendChild fresh hp

theorem C3_post_attach_vs_create_witness :
    ToManyRelationResource.post Entity.fields 9 [Parent.mk 1 [2]]
        [Entity.mk 3 []] 1 [("id", Value.vnat 3)]
      = { body := Body.doc (Entity.fields (Entity.mk 3 [])), code := 200,
          parents := ParentRepo.appendChild [Parent.mk 1 [2]] 1 3,
          children := [Entity.mk 3 []], hooks := [Hook.commitEvent] }
    ∧ ParentRepo.get
        (ToManyRelationResource.post Entity.fields 9 [Parent.mk 1 [2]]
          [Entity.mk 3 []] 1 [("id", Value.vnat 3)]).parents 1
      = some (Parent.mk 1 [2, 3]) :=
  (C3_post_attach_vs_create Entity.fields 9 [Parent.mk 1 [2]] [Entity.mk 3 []]
      1 [("id", Value.vnat 3)] (Parent.mk 1 [2]) (by decide)).1 3 (by decide)
    |>.2 (Entity.mk 3 []) (by decide)

/-! Lemmas about the datetime wire format. -/

theorem isDigitCode_digitCode {n : Nat} (h : n < 10) :
    isDigitCode (digitCode n) = true := by
  simp only [isDigitCode, digitCode, Bool.and_eq_true, decide_eq_true_eq]
  omega

theorem codeToDigit_digitCode (n : Nat) : codeToDigit (digitCode n) = n := by
  simp [codeToDigit, digitCode]

theorem pad2_digits {n : Nat} (h : n < 100) :
    ∀ c ∈ pad2 n, isDigitCode c = true := by
  intro c hc
  simp only [pad2, List.mem_cons, List.not_mem_nil, or_false] at hc
  rcases hc with rfl | rfl <;> exact isDigitCode_digitCode (by omega)

theorem pad4_digits {n : Nat} (h : n < 10000) :
    ∀ c ∈ pad4 n, isDigitCode c = true := by
  intro c hc
  simp only [pad4, List.mem_cons, List.not_mem_nil, or_false] at hc
  rcases hc with rfl | rfl | rfl | rfl <;> exact isDigitCode_digitCode (by omega)

theorem pad6_digits {n : Nat} (h : n < 1000000) :
    ∀ c ∈ pad6 n, isDigitCode c = true := by
  intro c hc
  simp only [pad6, List.mem_cons, List.not_mem_nil, or_false] at hc
  rcases hc with rfl | rfl | rfl | rfl | rfl | rfl <;>
    exact isDigitCode_digitCode (by omega)

theorem head_not_digit {a : Nat} (r : Str) (ha : isDigitCode a = false) :
    ∀ c, (a :: r).head? = some c → isDigitCode c = false := by
  intro c hc
  simp only [List.head?_cons, Option.some.injEq] at hc
  subst hc
  exact ha

theorem takeDigits_append (l r : Str) (hl : ∀ c ∈ l, isDigitCode c = true)
    (hr : ∀ c, r.head? = some c → isDigitCode c = false) :
    takeDigits (l ++ r) = (l, r) := by
  induction l with
  | nil =>
    cases r with
    | nil => rfl
    | cons c cs =>
      have hc := hr c (by simp)
      simp [takeDigits, hc]
  | cons c cs ih =>
    have hc := hl c (by simp)
    have ih' := ih (fun x hx => hl x (List.mem_cons_of_mem _ hx))
    simp [takeDigits, hc, ih']

theorem digitsToNat_pad4 {n : Nat} (h : n < 10000) : digitsToNat (pad4 n) = n := by
  simp only [digitsToNat, pad4, List.foldl_cons, List.foldl_nil, codeToDigit_digitCode]
  omega

theorem digitsToNat_pad6 {n : Nat} (h : n < 1000000) : digitsToNat (pad6 n) = n := by
  simp only [digitsToNat, pad6, List.foldl_cons, List.foldl_nil, codeToDigit_digitCode]
  omega

theorem parseYear_pad4 {y : Nat} (h : y < 10000) (rest : Str)
    (hr : ∀ c, rest.head? = some c → isDigitCode c = false) :
    parseYear (pad4 y ++ rest) = some (y, rest) := by
  unfold parseYear
  rw [takeDigits_append (pad4 y) rest (pad4_digits h) hr]
  simp only [digitsToNat_pad4 h]
  rfl

theorem parse2_pad2 {n : Nat} (h : n < 100) (rest : Str) :
    parse2 (pad2 n ++ rest) = some (n, rest) := by
  have h1 := isDigitCode_digitCode (n := n / 10) (by omega)
  have h2 := isDigitCode_digitCode (n := n % 10) (by omega)
  simp only [pad2, List.cons_append, List.nil_append, parse2, h1, h2,
    Bool.and_self, if_true, codeToDigit_digitCode, Option.some.injEq]
  have hn : 10 * (n / 10) + n % 10 = n := by omega
  rw [hn]

theorem expectCode_cons (c : Nat) (r : Str) : expectCode c (c :: r) = some r := by
  simp [expectCode]

theorem expectSep_T (r : Str) : expectSep (84 :: r) = some r := rfl

theorem parseSeconds_pad2 {n : Nat} (h : n < 100) (rest : Str) :
    parseSeconds (58 :: (pad2 n ++ rest)) = (n, rest) := by
  have h1 := isDigitCode_digitCode (n := n / 10) (by omega)
  have h2 := isDigitCode_digitCode (n := n % 10) (by omega)
  simp only [pad2, List.cons_append, List.nil_append, parseSeconds, h1, h2,
    Bool.and_self, if_true, codeToDigit_digitCode]
  have hn : 10 * (n / 10) + n % 10 = n := by omega
  rw [hn]

theorem parseFraction_cons_ne {c : Nat} (cs : Str) (h : ¬c = 46) :
    parseFraction (c :: cs) = (0, c :: cs) := by
  unfold parseFraction
  split <;> simp_all

theorem parseFraction_pad6 {n : Nat} (h : n < 1000000) (rest : Str)
    (hr : ∀ c, rest.head? = some c → isDigitCode c = false) :
    parseFraction (46 :: (pad6 n ++ rest)) = (n, rest) := by
  have ht := takeDigits_append (pad6 n) rest (pad6_digits h) hr
  show (if ((takeDigits (pad6 n ++ rest)).1.length == 0) = true
        then (0, 46 :: (pad6 n ++ rest))
        else (digitsToNat (takeDigits (pad6 n ++ rest)).1, (takeDigits (pad6 n ++ rest)).2))
      = (n, rest)
  rw [ht]
  rw [digitsToNat_pad6 h]
  rfl

theorem parseTzGroup_Z (rest : Str) : parseTzGroup (90 :: rest) = (some [90], rest) := rfl

theorem parseTzGroup_offset {h1 h2 m1 m2 : Nat} (c : Nat) (hc : c = 43 ∨ c = 45)
    (hh1 : isDigitCode h1 = true) (hh2 : isDigitCode h2 = true)
    (hm1 : isDigitCode m1 = true) (hm2 : isDigitCode m2 = true) (rest : Str) :
    parseTzGroup (c :: h1 :: h2 :: 58 :: m1 :: m2 :: rest)
      = (some [c, h1, h2, 58, m1, m2], rest) := by
  rcases hc with rfl | rfl <;> simp [parseTzGroup, hh1, hh2, hm1, hm2]

theorem daysInMonth_le (y m : Nat) : daysInMonth y m ≤ 31 := by
  unfold daysInMonth
  split
  · split <;> omega
  · split <;> omega

theorem parseTzinfo_nonneg (a : Nat) (ha : a < 1440) :
    parseTzinfo (some [43, digitCode (a / 60 / 10), digitCode (a / 60 % 10), 58,
        digitCode (a % 60 / 10), digitCode (a % 60 % 10)])
      = some (some (a : Int)) := by
  have e1 := codeToDigit_digitCode (a / 60 / 10)
  have e2 := codeToDigit_digitCode (a / 60 % 10)
  have e3 := codeToDigit_digitCode (a % 60 / 10)
  have e4 := codeToDigit_digitCode (a % 60 % 10)
  simp only [parseTzinfo]
  rw [if_neg (by simp [digitCode])]
  simp [e1, e2, e3, e4]
  omega

theorem parseTzinfo_neg (a : Nat) (ha0 : 0 < a) (ha : a < 1440)
    (hsafe : a % 60 = 0 ∨ a < 60) :
    parseTzinfo (some [45, digitCode (a / 60 / 10), digitCode (a / 60 % 10), 58,
        digitCode (a % 60 / 10), digitCode (a % 60 % 10)])
      = some (some (-(a : Int))) := by
  have e1 := codeToDigit_digitCode (a / 60 / 10)
  have e2 := codeToDigit_digitCode (a / 60 % 10)
  have e3 := codeToDigit_digitCode (a % 60 / 10)
  have e4 := codeToDigit_digitCode (a % 60 % 10)
  by_cases hlt : a < 60
  · have hd : a / 60 = 0 := Nat.div_eq_of_lt hlt
    have hm : a % 60 = a := Nat.mod_eq_of_lt hlt
    rw [hd] at e1 e2 ⊢
    rw [hm] at e3 e4 ⊢
    simp only [parseTzinfo]
    rw [if_neg (by simp [digitCode])]
    simp [e1, e2, e3, e4]
    omega
  · have hmod : a % 60 = 0 := by omega
    rw [hmod] at e3 e4 ⊢
    simp only [parseTzinfo]
    rw [if_neg (by simp [digitCode])]
    simp [e1, e2, e3, e4]
    omega

theorem fmtOffset_cons_neg {o : Int} (ho : o < 0) :
    fmtOffset o = 45 :: (pad2 (o.natAbs / 60) ++ 58 :: pad2 (o.natAbs % 60)) := by
  rw [fmtOffset, if_pos ho]

theorem fmtOffset_cons_nonneg {o : Int} (ho : ¬o < 0) :
    fmtOffset o = 43 :: (pad2 (o.toNat / 60) ++ 58 :: pad2 (o.toNat % 60)) := by
  rw [fmtOffset, if_neg ho]

theorem fmtOffset_append_head_not_digit (o : Int) (r : Str) :
    ∀ c, (fmtOffset o ++ r).head? = some c → isDigitCode c = false := by
  intro c hc
  by_cases ho : o < 0
  · rw [fmtOffset_cons_neg ho] at hc
    simp only [List.cons_append, List.head?_cons, Option.some.injEq] at hc
    subst hc
    rfl
  · rw [fmtOffset_cons_nonneg ho] at hc
    simp only [List.cons_append, List.head?_cons, Option.some.injEq] at hc
    subst hc
    rfl

theorem parseFraction_fmtOffset (o : Int) (rest : Str) :
    parseFraction (fmtOffset o ++ rest) = (0, fmtOffset o ++ rest) := by
  by_cases ho : o < 0
  · rw [fmtOffset_cons_neg ho]
    simp only [List.cons_append]
    exact parseFraction_cons_ne _ (by omega)
  · rw [fmtOffset_cons_nonneg ho]
    simp only [List.cons_append]
    exact parseFraction_cons_ne _ (by omega)

theorem parseTz_fmtOffset (o : Int) (hlo : -1440 < o) (hhi : o < 1440)
    (hsafe : offsetRoundTrips o = true) (rest : Str) :
    parseTzinfo (parseTzGroup (fmtOffset o ++ rest)).1 = some (some o) := by
  by_cases ho : o < 0
  · have ha0 : 0 < o.natAbs := by omega
    have ha : o.natAbs < 1440 := by omega
    have hH : o.natAbs / 60 < 100 := by omega
    have hM : o.natAbs % 60 < 100 := by omega
    have hs : o.natAbs % 60 = 0 ∨ o.natAbs < 60 := by
      have h2 := hsafe
      unfold offsetRoundTrips at h2
      simp only [Bool.or_eq_true, decide_eq_true_eq, beq_iff_eq] at h2
      omega
    rw [fmtOffset_cons_neg ho]
    simp only [pad2, List.cons_append, List.nil_append]
    rw [parseTzGroup_offset 45 (Or.inr rfl)
      (isDigitCode_digitCode (by omega)) (isDigitCode_digitCode (by omega))
      (isDigitCode_digitCode (by omega)) (isDigitCode_digitCode (by omega)) rest]
    show parseTzinfo (some [45, digitCode (o.natAbs / 60 / 10), digitCode (o.natAbs / 60 % 10),
        58, digitCode (o.natAbs % 60 / 10), digitCode (o.natAbs % 60 % 10)]) = some (some o)
    rw [parseTzinfo_neg o.natAbs ha0 ha hs]
    have : -((o.natAbs : Int)) = o := by omega
    rw [this]
  · have ha : o.toNat < 1440 := by omega
    rw [fmtOffset_cons_nonneg ho]
    simp only [pad2, List.cons_append, List.nil_append]
    rw [parseTzGroup_offset 43 (Or.inl rfl)
      (isDigitCode_digitCode (by omega)) (isDigitCode_digitCode (by omega))
      (isDigitCode_digitCode (by omega)) (isDigitCode_digitCode (by omega)) rest]
    show parseTzinfo (some [43, digitCode (o.toNat / 60 / 10), digitCode (o.toNat / 60 % 10),
        58, digitCode (o.toNat % 60 / 10), digitCode (o.toNat % 60 % 10)]) = some (some o)
    rw [parseTzinfo_nonneg o.toNat ha]
    have : ((o.toNat : Int)) = o := by omega
    rw [this]

theorem load_dump_aware (y mo dy h mi s us : Nat) (o : Int)
    (hv : PyDateTime.validB (PyDateTime.mk y mo dy h mi s us (some o)) = true)
    (hlo : -1440 < o) (hhi : o < 1440) (hsafe : offsetRoundTrips o = true) :
    DateTimeSerializer.load (DateTimeSerializer.dump (PyDateTime.mk y mo dy h mi s us (some o)))
      = some (PyDateTime.mk y mo dy h mi s us (some o)) := by
  have hdm := daysInMonth_le y mo
  have hb := hv
  simp only [PyDateTime.validB, Bool.and_eq_true, decide_eq_true_eq] at hb
  have hy : y < 10000 := by omega
  have hmo2 : mo < 100 := by omega
  have hdy2 : dy < 100 := by omega
  have hh2 : h < 100 := by omega
  have hmi2 : mi < 100 := by omega
  have hs2 : s < 100 := by omega
  have hus2 : us < 1000000 := by omega
  by_cases hus : us = 0
  · subst hus
    simp only [DateTimeSerializer.dump, isoformat, List.append_assoc, List.cons_append,
      List.nil_append, beq_self_eq_true, if_true]
    unfold DateTimeSerializer.load
    rw [parseYear_pad4 hy _ (head_not_digit (a := 45) _ rfl)]
    simp only [Option.bind_eq_bind, Option.some_bind]
    rw [expectCode_cons]
    simp only [Option.bind_eq_bind, Option.some_bind]
    rw [parse2_pad2 hmo2]
    simp only [Option.bind_eq_bind, Option.some_bind]
    rw [expectCode_cons]
    simp only [Option.bind_eq_bind, Option.some_bind]
    rw [parse2_pad2 hdy2]
    simp only [Option.bind_eq_bind, Option.some_bind]
    rw [expectSep_T]
    simp only [Option.bind_eq_bind, Option.some_bind]
    rw [parse2_pad2 hh2]
    simp only [Option.bind_eq_bind, Option.some_bind]
    rw [expectCode_cons]
    simp only [Option.bind_eq_bind, Option.some_bind]
    rw [parse2_pad2 hmi2]
    simp only [Option.bind_eq_bind, Option.some_bind]
    rw [parseSeconds_pad2 hs2]
    simp only []
    rw [parseFraction_fmtOffset]
    simp only []
    rw [parseTz_fmtOffset o hlo hhi hsafe]
    simp only [Option.bind_eq_bind, Option.some_bind]
    simp [hv]
  · have hF : (if (us == 0) = true then ([] : Str) else 46 :: pad6 us) = 46 :: pad6 us :=
      if_neg (by simpa using hus)
    simp only [DateTimeSerializer.dump, isoformat, hF, List.append_assoc, List.cons_append,
      List.nil_append]
    unfold DateTimeSerializer.load
    rw [parseYear_pad4 hy _ (head_not_digit (a := 45) _ rfl)]
    simp only [Option.bind_eq_bind, Option.some_bind]
    rw [expectCode_cons]
    simp only [Option.bind_eq_bind, Option.some_bind]
    rw [parse2_pad2 hmo2]
    simp only [Option.bind_eq_bind, Option.some_bind]
    rw [expectCode_cons]
    simp only [Option.bind_eq_bind, Option.some_bind]
    rw [parse2_pad2 hdy2]
    simp only [Option.bind_eq_bind, Option.some_bind]
    rw [expectSep_T]
    simp only [Option.bind_eq_bind, Option.some_bind]
    rw [parse2_pad2 hh2]
    simp only [Option.bind_eq_bind, Option.some_bind]
    rw [expectCode_cons]
    simp only [Option.bind_eq_bind, Option.some_bind]
    rw [parse2_pad2 hmi2]
    simp only [Option.bind_eq_bind, Option.some_bind]
    rw [parseSeconds_pad2 hs2]
    simp only []
    rw [parseFraction_pad6 hus2 _ (fmtOffset_append_head_not_digit o [90])]
    simp only []
    rw [parseTz_fmtOffset o hlo hhi hsafe]
    simp only [Option.bind_eq_bind, Option.some_bind]
    simp [hv]

/-- C4 counterexample: the round trip fails for a naive datetime — dump
appends 'Z' unconditionally, so loading the dump of the naive
2020-01-01T10:00:00 yields the same wall-clock time tagged UTC, not the
naive original. -/
theorem C4_roundtrip_naive_counterexample :
    DateTimeSerializer.load (DateTimeSerializer.dump (PyDateTime.mk 2020 1 1 10 0 0 0 none))
      = some (PyDateTime.mk 2020 1 1 10 0 0 0 (some 0))
    ∧ DateTimeSerializer.load (DateTimeSerializer.dump (PyDateTime.mk 2020 1 1 10 0 0 0 none))
      ≠ some (PyDateTime.mk 2020 1 1 10 0 0 0 none) := by
  constructor
  · decide
  · decide

/-- C4 (amended): load(dump(d)) reproduces d, with or without a sub-second
fraction, for every timezone-aware datetime whose UTC offset is within a day
and is nonnegative, a whole number of hours, or smaller than one hour in
magnitude (the parser applies the sign of a negative offset only to its hour
part, so negative offsets with both hours and minutes come back shifted, and
a naive datetime comes back tagged UTC); in particular loading
"2020-01-01T10:00:00+05:30" yields offset +5:30 and loading
"2020-01-01T10:00:00Z" yields UTC. -/
theorem C4_datetime_roundtrip_amended (d : PyDateTime) (o : Int)
    (hv : d.validB = true) (htz : d.tz = some o)
    (hlo : -1440 < o) (hhi : o < 1440) (hsafe : offsetRoundTrips o = true) :
    DateTimeSerializer.load (DateTimeSerializer.dump d) = some d
    ∧ DateTimeSerializer.load (strCodes "2020-01-01T10:00:00+05:30")
        = some (PyDateTime.mk 2020 1 1 10 0 0 0 (some 330))
    ∧ DateTimeSerializer.load (strCodes "2020-01-01T10:00:00Z")
        = some (PyDateTime.mk 2020 1 1 10 0 0 0 (some 0)) := by
  obtain ⟨y, mo, dy, h, mi, s, us, tz⟩ := d
  simp only at htz
  subst htz
  exact ⟨load_dump_aware y mo dy h mi s us o hv hlo hhi hsafe, by decide, by decide⟩

theorem C4_datetime_roundtrip_amended_witness :
    DateTimeSerializer.load
        (DateTimeSerializer.dump (PyDateTime.mk 2020 12 31 23 59 59 500000 (some 330)))
      = some (PyDateTime.mk 2020 12 31 23 59 59 500000 (some 330)) :=
  (C4_datetime_roundtrip_amended (PyDateTime.mk 2020 12 31 23 59 59 500000 (some 330)) 330
    (by decide) rfl (by decide) (by decide) (by decide)).1

end FlaskRestAlchemy
